import Mathlib

/-!
Shallow embedding of `tools/plot-comp-ratio.py`, a linear pipeline:
parse two fixed-format measurement files, average each line, divide the
averages pointwise, render a line plot, optionally save it.

Modelling conventions:
* Python floats are modelled as rationals (`ℚ`); every numeric literal in
  the claims is exactly representable, and all arithmetic the script
  performs on them (sums of small dyadic values, division) is exact in
  IEEE double, so the rational model agrees with the float semantics on
  the inputs at stake.  The special value `float("nan")` produced by
  `safe_div` is modelled by `Option ℚ` with `none` as the NaN sentinel.
* Python exceptions are modelled by `Except PyErr`, one constructor per
  exception class the script can raise.
* File I/O is modelled at the level of file contents (`String`); reading
  a file is receiving its contents.  `readlines` keeps the trailing
  newline inside each line; since every line is immediately re-tokenized
  with whitespace-discarding `split()`, we model lines without their
  terminators, which is observationally identical.
-/

/-- Exceptions the script can raise, one constructor per Python class. -/
inductive PyErr where
  | indexError
  | valueError
  | zeroDivisionError
  | assertionError
deriving DecidableEq

/-- Tokenization of a line, Python `str.split()` with no argument: split on
runs of whitespace, discarding empty tokens. -/
def splitWsAux : List Char → List Char → List (List Char)
  | [], cur => if cur.isEmpty then [] else [cur.reverse]
  | c :: cs, cur =>
    if c.isWhitespace then
      if cur.isEmpty then splitWsAux cs [] else cur.reverse :: splitWsAux cs []
    else splitWsAux cs (c :: cur)

def pySplit (s : String) : List String :=
  (splitWsAux s.toList []).map fun cs => String.mk cs

/-- Python `file.readlines()` followed by per-line processing: split the
contents at newline characters; a final piece after the last newline is a
line only if nonempty (modulo kept terminators, see module comment). -/
def pyReadlinesAux : List Char → List Char → List String
  | [], cur => if cur.isEmpty then [] else [String.mk cur.reverse]
  | c :: cs, cur =>
    if c = '\n' then String.mk cur.reverse :: pyReadlinesAux cs []
    else pyReadlinesAux cs (c :: cur)

def pyReadlines (s : String) : List String := pyReadlinesAux s.toList []

/-- Value of a nonempty digit string. -/
def digitsToNat (ds : List Char) : ℕ :=
  ds.foldl (fun acc c => 10 * acc + (c.toNat - 48)) 0

/-- Python `int(token)` on a whitespace-free token: optional sign followed
by one or more decimal digits; anything else raises `ValueError`
(modelled as `none`). -/
def pyInt (s : String) : Option Int :=
  match s.toList with
  | [] => none
  | '+' :: rest =>
    if !rest.isEmpty && rest.all Char.isDigit then some (digitsToNat rest) else none
  | '-' :: rest =>
    if !rest.isEmpty && rest.all Char.isDigit then some (-(digitsToNat rest : Int)) else none
  | cs =>
    if cs.all Char.isDigit then some (digitsToNat cs) else none

/-- Consume an optional leading sign; returns (isNegative, rest). -/
def readSign : List Char → Bool × List Char
  | '+' :: r => (false, r)
  | '-' :: r => (true, r)
  | cs => (false, cs)

/-- The syntactic content of a decimal float literal: sign, all mantissa
digits (integer part followed by fraction part), number of fraction
digits, and, when an exponent is present, its sign and digits. -/
structure FloatTok where
  neg : Bool
  ds : List Char
  flen : ℕ
  ex : Option (Bool × List Char)
deriving DecidableEq

/-- Char-level recognition of a Python float literal on a whitespace-free
token, restricted to finite decimal literals: optional sign, an integer
and/or fractional digit part, optional exponent.  The special literals
`inf`/`nan` fall outside the rational value domain and are not modelled;
no claim depends on them. -/
def pyFloatTok (s : String) : Option FloatTok :=
  let (neg, cs) := readSign s.toList
  let ip := cs.takeWhile Char.isDigit
  let cs1 := cs.dropWhile Char.isDigit
  let (fp, cs2) :=
    match cs1 with
    | '.' :: r => (r.takeWhile Char.isDigit, r.dropWhile Char.isDigit)
    | _ => ([], cs1)
  if ip.isEmpty && fp.isEmpty then none
  else
    match cs2 with
    | [] => some ⟨neg, ip ++ fp, fp.length, none⟩
    | c :: r =>
      if c = 'e' ∨ c = 'E' then
        let (eneg, r1) := readSign r
        let eds := r1.takeWhile Char.isDigit
        let rest := r1.dropWhile Char.isDigit
        if eds.isEmpty ∨ !rest.isEmpty then none
        else some ⟨neg, ip ++ fp, fp.length, some (eneg, eds)⟩
      else none

/-- Numeric value of a recognized float literal. -/
def floatVal (t : FloatTok) : ℚ :=
  let base : ℚ := (digitsToNat t.ds : ℚ) / ((10 : ℚ) ^ t.flen)
  let signed := if t.neg then -base else base
  match t.ex with
  | none => signed
  | some (eneg, eds) =>
    let e : ℤ := if eneg then -(digitsToNat eds : ℤ) else (digitsToNat eds : ℤ)
    signed * (10 : ℚ) ^ e

/-- Python `float(token)`: recognize the literal and take its value;
`none` models the `ValueError` raised on an unrecognized token. -/
def pyFloat (s : String) : Option ℚ :=
  (pyFloatTok s).map floatVal

/-- The function `safe_div` from the script: `a / b if b != 0 else NaN`, with `none`
as the NaN sentinel. -/
def safe_div (a b : ℚ) : Option ℚ :=
  if b ≠ 0 then some (a / b) else none

/-- One parsed line `[n] + m + [a]`: size, measurements, derived average. -/
structure Record where
  n : Int
  m : List ℚ
  a : ℚ
deriving DecidableEq

/-- Left-to-right effectful map over `Except`: first error aborts, exactly
like the Python `for` loop accumulating `results`. -/
def mapME (f : α → Except PyErr β) : List α → Except PyErr (List β)
  | [] => .ok []
  | x :: xs => do
    let y ← f x
    let ys ← mapME f xs
    return y :: ys

/-- Left-to-right map over `Option`, mirroring the list comprehension
`[float(i) for i in line[1:]]` where any bad token raises. -/
def mapMO (f : α → Option β) : List α → Option (List β)
  | [] => some []
  | x :: xs =>
    match f x, mapMO f xs with
    | some y, some ys => some (y :: ys)
    | _, _ => none

/-- The body of the parse loop for one line `j`:
`line = j.split(); n = int(line[0]); m = [float(i) for i in line[1:]];
a = sum(m)/len(m); results += [[n] + m + [a]]`.
`line[0]` on an empty list raises IndexError; a bad `int`/`float` raises
ValueError; `len(m) == 0` makes `sum(m)/len(m)` raise ZeroDivisionError. -/
def parseLine (j : String) : Except PyErr Record :=
  match pySplit j with
  | [] => .error .indexError
  | t :: ts =>
    match pyInt t with
    | none => .error .valueError
    | some n =>
      match mapMO pyFloat ts with
      | none => .error .valueError
      | some m =>
        if m.isEmpty then .error .zeroDivisionError
        else .ok ⟨n, m, m.sum / (m.length : ℚ)⟩

/-- Parse the contents of one file into its list of records (`results`). -/
def parseFile (contents : String) : Except PyErr (List Record) :=
  mapME parseLine (pyReadlines contents)

/-- The ratio computation, lines 49–54 of the script:
`sizes = [i[0] for i in data[0]]`, `avg1/avg2 = [i[-1] for i in data[k]]`,
`comp = [safe_div(avg1[i], avg2[i]) for i in range(len(sizes))]`.
Indexing past the end of `avg1`/`avg2` raises IndexError. -/
def compStep (avg1 avg2 : List ℚ) (i : ℕ) : Except PyErr (Option ℚ) :=
  match avg1.get? i, avg2.get? i with
  | some x, some y => .ok (safe_div x y)
  | _, _ => .error .indexError

def compPy (d1 d2 : List Record) : Except PyErr (List (Option ℚ)) :=
  let sizes := d1.map (·.n)
  let avg1 := d1.map (·.a)
  let avg2 := d2.map (·.a)
  mapME (compStep avg1 avg2) (List.range sizes.length)

/-- The parsed command-line options (`opts`): each is `None` when the flag
was absent, the given string when present. -/
structure Opts where
  output : Option String
  ylabel : Option String
  title : Option String
deriving DecidableEq

def optsNone : Opts := ⟨none, none, none⟩

/-- Python truthiness of an `Option String`: `None` and the empty string
are falsy, every other string is truthy. -/
def truthy : Option String → Bool
  | none => false
  | some s => !(s == "")

/-- The in-memory plot artifact built by lines 57–62.  `p.plot(comp)`
draws a single line trace of the values against their 0-based index,
modelled by the list of (index, value) points. -/
structure PlotState where
  trace : List (ℕ × Option ℚ)
  xlabel : Option String
  ylabel : Option String
  title : Option String
deriving DecidableEq

/-- Lines 57–62: `p.plot(comp)`, unconditional `p.xlabel("Data size")`,
then `ylabel`/`title` only when the option value is truthy. -/
def renderPlot (comp : List (Option ℚ)) (yl ti : Option String) : PlotState :=
  { trace := comp.enum
    xlabel := some "Data size"
    ylabel := if truthy yl then yl else none
    title := if truthy ti then ti else none }

/-- Everything observable at the end of a successful run: the derived
series, the plot artifact, and the path written by `savefig` (`none`
when no file was written). -/
structure RunResult where
  sizes : List Int
  avg1 : List ℚ
  avg2 : List ℚ
  comp : List (Option ℚ)
  plot : PlotState
  written : Option String
deriving DecidableEq

/-- The whole script after option parsing: parse each positional file,
`assert len(data) == 2`, compute the ratio series, render the plot, and
write the file only when `opts.output` is truthy (`if out: p.savefig(out)`). -/
def pipeline (files : List String) (opts : Opts) : Except PyErr RunResult := do
  let data ← mapME parseFile files
  match data with
  | [d1, d2] =>
    let comp ← compPy d1 d2
    let plot := renderPlot comp opts.ylabel opts.title
    let written := if truthy opts.output then opts.output else none
    return { sizes := d1.map (·.n)
             avg1 := d1.map (·.a)
             avg2 := d2.map (·.a)
             comp := comp
             plot := plot
             written := written }
  | _ => .error .assertionError

/-- Scenario 1 input files. -/
def fileA : String := "10 1.0 3.0\n20 2.0 2.0\n"

def fileB : String := "10 2.0 2.0\n20 4.0 4.0\n"

/-- Scenario 2 second file: first line has average exactly zero. -/
def fileB0 : String := "10 0.0 0.0\n20 4.0 4.0\n"

/-- Sample records used to instantiate the quantified claims. -/
def recA : Record := ⟨10, [2], 2⟩

def recB : Record := ⟨20, [4], 4⟩

/-- The scenario-1 run result, used to state the C9 witness. -/
def runS1 (opts : Opts) : RunResult :=
  { sizes := [10, 20], avg1 := [2, 2], avg2 := [2, 4]
    comp := [some 1, some (1/2)]
    plot := renderPlot [some 1, some (1/2)] opts.ylabel opts.title
    written := if truthy opts.output then opts.output else none }

/-! ### Evaluation lemmas for `Except` plumbing -/

theorem ok_bind (a : α) (f : α → Except PyErr β) :
    (Except.ok a : Except PyErr α) >>= f = f a := rfl

theorem error_bind (e : PyErr) (f : α → Except PyErr β) :
    (Except.error e : Except PyErr α) >>= f = .error e := rfl

theorem pureE (a : α) : (pure a : Except PyErr α) = .ok a := rfl

/-! ### Concrete token values (char-level facts by kernel reduction,
numeric facts by `norm_num`) -/

theorem pyFloat_val (s : String) (neg : Bool) (ds : List Char) (flen v : ℕ)
    (h : pyFloatTok s = some ⟨neg, ds, flen, none⟩) (hv : digitsToNat ds = v) :
    pyFloat s = some ((if neg then -(v : ℚ) else (v : ℚ)) / (10 : ℚ) ^ flen) := by
  rw [pyFloat, h, Option.map_some']
  simp only [floatVal, hv]
  cases neg <;> simp [neg_div]

theorem pyFloat_one : pyFloat "1.0" = some 1 := by
  rw [pyFloat_val "1.0" false ['1', '0'] 1 10 (by decide) (by decide)]
  norm_num

theorem pyFloat_two : pyFloat "2.0" = some 2 := by
  rw [pyFloat_val "2.0" false ['2', '0'] 1 20 (by decide) (by decide)]
  norm_num

theorem pyFloat_three : pyFloat "3.0" = some 3 := by
  rw [pyFloat_val "3.0" false ['3', '0'] 1 30 (by decide) (by decide)]
  norm_num

theorem pyFloat_four : pyFloat "4.0" = some 4 := by
  rw [pyFloat_val "4.0" false ['4', '0'] 1 40 (by decide) (by decide)]
  norm_num

theorem pyFloat_zero : pyFloat "0.0" = some 0 := by
  rw [pyFloat_val "0.0" false ['0', '0'] 1 0 (by decide) (by decide)]
  norm_num

example : pySplit "10 1.0 3.0" = ["10", "1.0", "3.0"] := by decide
example : pyReadlines fileA = ["10 1.0 3.0", "20 2.0 2.0"] := by decide
example : pyInt "10" = some 10 := by decide

/-! ### Concrete line and file parses -/

theorem parseLine_a1 : parseLine "10 1.0 3.0" = .ok ⟨10, [1, 3], 2⟩ := by
  have hs : pySplit "10 1.0 3.0" = ["10", "1.0", "3.0"] := by decide
  have hn : pyInt "10" = some 10 := by decide
  simp only [parseLine, hs, hn, mapMO, pyFloat_one, pyFloat_three, List.isEmpty]
  norm_num

theorem parseLine_a2 : parseLine "20 2.0 2.0" = .ok ⟨20, [2, 2], 2⟩ := by
  have hs : pySplit "20 2.0 2.0" = ["20", "2.0", "2.0"] := by decide
  have hn : pyInt "20" = some 20 := by decide
  simp only [parseLine, hs, hn, mapMO, pyFloat_two, List.isEmpty]
  norm_num

theorem parseLine_b1 : parseLine "10 2.0 2.0" = .ok ⟨10, [2, 2], 2⟩ := by
  have hs : pySplit "10 2.0 2.0" = ["10", "2.0", "2.0"] := by decide
  have hn : pyInt "10" = some 10 := by decide
  simp only [parseLine, hs, hn, mapMO, pyFloat_two, List.isEmpty]
  norm_num

theorem parseLine_b2 : parseLine "20 4.0 4.0" = .ok ⟨20, [4, 4], 4⟩ := by
  have hs : pySplit "20 4.0 4.0" = ["20", "4.0", "4.0"] := by decide
  have hn : pyInt "20" = some 20 := by decide
  simp only [parseLine, hs, hn, mapMO, pyFloat_four, List.isEmpty]
  norm_num

theorem parseLine_z1 : parseLine "10 0.0 0.0" = .ok ⟨10, [0, 0], 0⟩ := by
  have hs : pySplit "10 0.0 0.0" = ["10", "0.0", "0.0"] := by decide
  have hn : pyInt "10" = some 10 := by decide
  simp only [parseLine, hs, hn, mapMO, pyFloat_zero, List.isEmpty]
  norm_num

theorem parseFile_a : parseFile fileA = .ok [⟨10, [1, 3], 2⟩, ⟨20, [2, 2], 2⟩] := by
  have hr : pyReadlines fileA = ["10 1.0 3.0", "20 2.0 2.0"] := by decide
  unfold parseFile
  rw [hr]
  simp only [mapME]
  rw [parseLine_a1, parseLine_a2]
  simp only [ok_bind, pureE]

theorem parseFile_b : parseFile fileB = .ok [⟨10, [2, 2], 2⟩, ⟨20, [4, 4], 4⟩] := by
  have hr : pyReadlines fileB = ["10 2.0 2.0", "20 4.0 4.0"] := by decide
  unfold parseFile
  rw [hr]
  simp only [mapME]
  rw [parseLine_b1, parseLine_b2]
  simp only [ok_bind, pureE]

theorem parseFile_b0 : parseFile fileB0 = .ok [⟨10, [0, 0], 0⟩, ⟨20, [4, 4], 4⟩] := by
  have hr : pyReadlines fileB0 = ["10 0.0 0.0", "20 4.0 4.0"] := by decide
  unfold parseFile
  rw [hr]
  simp only [mapME]
  rw [parseLine_z1, parseLine_b2]
  simp only [ok_bind, pureE]

/-! ### Concrete ratio values -/

theorem safe_div_22 : safe_div 2 2 = some 1 := by rw [safe_div]; norm_num

theorem safe_div_24 : safe_div 2 4 = some (1/2) := by rw [safe_div]; norm_num

theorem safe_div_20 : safe_div 2 0 = none := by rw [safe_div]; norm_num

theorem compPy_s1 :
    compPy [⟨10, [1, 3], 2⟩, ⟨20, [2, 2], 2⟩] [⟨10, [2, 2], 2⟩, ⟨20, [4, 4], 4⟩]
      = .ok [some 1, some (1/2)] := by
  have h : compPy [⟨10, [1, 3], 2⟩, ⟨20, [2, 2], 2⟩] [⟨10, [2, 2], 2⟩, ⟨20, [4, 4], 4⟩]
      = .ok [safe_div 2 2, safe_div 2 4] := rfl
  rw [h, safe_div_22, safe_div_24]

theorem compPy_s2 :
    compPy [⟨10, [1, 3], 2⟩, ⟨20, [2, 2], 2⟩] [⟨10, [0, 0], 0⟩, ⟨20, [4, 4], 4⟩]
      = .ok [none, some (1/2)] := by
  have h : compPy [⟨10, [1, 3], 2⟩, ⟨20, [2, 2], 2⟩] [⟨10, [0, 0], 0⟩, ⟨20, [4, 4], 4⟩]
      = .ok [safe_div 2 0, safe_div 2 4] := rfl
  rw [h, safe_div_20, safe_div_24]

/-! ### Scenario pipelines, generic in the options -/

theorem pipeline_s1 (opts : Opts) :
    pipeline [fileA, fileB] opts
      = .ok { sizes := [10, 20], avg1 := [2, 2], avg2 := [2, 4]
              comp := [some 1, some (1/2)]
              plot := renderPlot [some 1, some (1/2)] opts.ylabel opts.title
              written := if truthy opts.output then opts.output else none } := by
  unfold pipeline
  simp only [mapME]
  rw [parseFile_a, parseFile_b]
  simp only [ok_bind, pureE]
  rw [compPy_s1]
  simp only [ok_bind, pureE, List.map]

theorem pipeline_s2 (opts : Opts) :
    pipeline [fileA, fileB0] opts
      = .ok { sizes := [10, 20], avg1 := [2, 2], avg2 := [0, 4]
              comp := [none, some (1/2)]
              plot := renderPlot [none, some (1/2)] opts.ylabel opts.title
              written := if truthy opts.output then opts.output else none } := by
  unfold pipeline
  simp only [mapME]
  rw [parseFile_a, parseFile_b0]
  simp only [ok_bind, pureE]
  rw [compPy_s2]
  simp only [ok_bind, pureE, List.map]

/-! ### General lemmas about the effectful maps -/

theorem mapME_append (f : α → Except PyErr β) (l1 l2 : List α) :
    mapME f (l1 ++ l2) = do
      let xs ← mapME f l1
      let ys ← mapME f l2
      return xs ++ ys := by
  induction l1 with
  | nil =>
    simp only [List.nil_append, mapME, ok_bind]
    cases h : mapME f l2 with
    | error e => rfl
    | ok ys => simp [ok_bind, pureE]
  | cons x xs ih =>
    simp only [List.cons_append, mapME, List.append_eq, ih]
    cases hf : f x with
    | error e => rfl
    | ok y =>
      simp only [ok_bind]
      cases h1 : mapME f xs with
      | error e => rfl
      | ok zs =>
        simp only [ok_bind, pureE]
        cases h2 : mapME f l2 with
        | error e => rfl
        | ok ws => simp [ok_bind, pureE]

theorem mapME_ok_length (f : α → Except PyErr β) :
    ∀ (l : List α) (ys : List β), mapME f l = .ok ys → ys.length = l.length := by
  intro l
  induction l with
  | nil =>
    intro ys h
    simp only [mapME] at h
    cases h
    rfl
  | cons x xs ih =>
    intro ys h
    simp only [mapME] at h
    cases hf : f x with
    | error e => rw [hf, error_bind] at h; cases h
    | ok y =>
      rw [hf, ok_bind] at h
      cases h1 : mapME f xs with
      | error e => rw [h1, error_bind] at h; cases h
      | ok zs =>
        rw [h1, ok_bind, pureE] at h
        cases h
        simp [ih zs h1]

theorem mapMO_eq_none (f : α → Option β) :
    ∀ (l : List α) (x : α), x ∈ l → f x = none → mapMO f l = none := by
  intro l
  induction l with
  | nil => intro x hx; cases hx
  | cons y ys ih =>
    intro x hx hfx
    rcases List.mem_cons.mp hx with h | h
    · subst h
      simp [mapMO, hfx]
    · simp only [mapMO]
      rw [ih x h hfx]
      cases f y <;> rfl

/-! ### The ratio loop over explicit indices -/

theorem mapME_compStep (A B : List ℚ) :
    ∀ n, n ≤ A.length → n ≤ B.length →
      mapME (compStep A B) (List.range n)
        = .ok (List.zipWith safe_div (A.take n) (B.take n)) := by
  intro n
  induction n with
  | zero => intro _ _; simp [mapME]
  | succ n ih =>
    intro h1 h2
    have hn1 : n < A.length := by omega
    have hn2 : n < B.length := by omega
    have ha : A.get? n = some (A.get ⟨n, hn1⟩) := List.get?_eq_get hn1
    have hb : B.get? n = some (B.get ⟨n, hn2⟩) := List.get?_eq_get hn2
    have hstep : mapME (compStep A B) [n]
        = .ok [safe_div (A.get ⟨n, hn1⟩) (B.get ⟨n, hn2⟩)] := by
      simp only [mapME, compStep, ha, hb, ok_bind, pureE]
    rw [List.range_succ, mapME_append, ih (by omega) (by omega), hstep]
    simp only [ok_bind, pureE]
    rw [List.take_succ, List.take_succ,
      List.zipWith_append _ _ _ _ _ (by simp [List.length_take]; omega)]
    have ha' : A[n]? = some (A.get ⟨n, hn1⟩) := by
      rw [← List.get?_eq_getElem?]; exact ha
    have hb' : B[n]? = some (B.get ⟨n, hn2⟩) := by
      rw [← List.get?_eq_getElem?]; exact hb
    rw [ha', hb']
    simp

theorem mapME_compStep_err (A B : List ℚ) (h : B.length < A.length) :
    mapME (compStep A B) (List.range A.length) = .error .indexError := by
  have hk : B.length < A.length := h
  have hstep : compStep A B B.length = .error .indexError := by
    have hb : B.get? B.length = none := List.get?_eq_none.mpr (le_refl _)
    have ha : A.get? B.length = some (A.get ⟨B.length, hk⟩) := List.get?_eq_get hk
    simp only [compStep, ha, hb]
  have hsplit : A.length = (B.length + 1) + (A.length - (B.length + 1)) := by omega
  rw [hsplit, List.range_add, mapME_append, List.range_succ, mapME_append,
    mapME_compStep A B B.length (by omega) (le_refl _)]
  have hone : mapME (compStep A B) [B.length] = .error .indexError := by
    simp only [mapME, hstep, error_bind]
  rw [hone]
  rfl

/-- The function `zipWith` ignores the part of the second list beyond the first. -/
theorem zipWith_take_len (f : α → β → γ) :
    ∀ (A : List α) (B : List β), List.zipWith f A (B.take A.length) = List.zipWith f A B := by
  intro A
  induction A with
  | nil => intro B; simp
  | cons x xs ih =>
    intro B
    cases B with
    | nil => simp
    | cons y ys => simp [ih]

theorem get?_zipWith_some (f : α → β → γ) :
    ∀ (l1 : List α) (l2 : List β) (i : ℕ) (a : α) (b : β),
      l1.get? i = some a → l2.get? i = some b →
      (List.zipWith f l1 l2).get? i = some (f a b) := by
  intro l1
  induction l1 with
  | nil => intro l2 i a b h; simp at h
  | cons x xs ih =>
    intro l2 i a b h1 h2
    cases l2 with
    | nil => simp at h2
    | cons y ys =>
      cases i with
      | zero =>
        simp only [List.get?] at h1 h2
        cases h1; cases h2
        rfl
      | succ j =>
        simp only [List.get?] at h1 h2
        simpa [List.zipWith] using ih ys j a b h1 h2

/-- The ratio computation written through `compStep` over the index range. -/
theorem compPy_eq (d1 d2 : List Record) :
    compPy d1 d2
      = mapME (compStep (d1.map (·.a)) (d2.map (·.a))) (List.range d1.length) := by
  simp only [compPy, List.length_map]

/-- The ratio computation succeeds whenever the first dataset is at most as long as the
second, and the result pairs averages positionally. -/
theorem compPy_ok_of_le (d1 d2 : List Record) (hle : d1.length ≤ d2.length) :
    compPy d1 d2 = .ok (List.zipWith (fun r s => safe_div r.a s.a) d1 d2) := by
  have hA : (d1.map (·.a)).length = d1.length := List.length_map _ _
  have hB : (d2.map (·.a)).length = d2.length := List.length_map _ _
  rw [compPy_eq, mapME_compStep _ _ d1.length (by omega) (by omega)]
  congr 1
  rw [← hA, List.take_length, zipWith_take_len, List.zipWith_map_left,
    List.zipWith_map_right]

/-- The ratio computation raises IndexError whenever the first dataset is strictly
longer than the second. -/
theorem compPy_err_of_lt (d1 d2 : List Record) (hlt : d2.length < d1.length) :
    compPy d1 d2 = .error .indexError := by
  have hA : (d1.map (·.a)).length = d1.length := List.length_map _ _
  have hB : (d2.map (·.a)).length = d2.length := List.length_map _ _
  rw [compPy_eq, ← hA]
  exact mapME_compStep_err _ _ (by omega)

/-! ### Claim theorems -/

/-- C1: End-to-end on the two concrete well-formed input files of
scenario 1 (file a with lines `10 1.0 3.0` and `20 2.0 2.0`, file b with
lines `10 2.0 2.0` and `20 4.0 4.0`), the pipeline computes per-file
average sequences [2.0, 2.0] and [2.0, 4.0] and the ratio series
[1.0, 0.5]. -/
theorem scenario1_ratio_series :
    (pipeline [fileA, fileB] optsNone).map (fun r => (r.avg1, r.avg2, r.comp))
      = .ok ([2, 2], [2, 4], [some 1, some (1/2)]) := by
  rw [pipeline_s1]
  rfl

/-- C2: `safe_div x 0` is the NaN sentinel for every numerator, and
`safe_div x y = x / y` for every nonzero denominator; consequently, in
scenario 2 (first line of the second file `10 0.0 0.0` with average 0) the
ratio series holds the NaN sentinel at index 0 instead of an exception
being raised. -/
theorem safe_div_total_spec :
    (∀ x : ℚ, safe_div x 0 = none)
    ∧ (∀ x y : ℚ, y ≠ 0 → safe_div x y = some (x / y))
    ∧ (pipeline [fileA, fileB0] optsNone).map (fun r => r.comp)
        = .ok [none, some (1/2)] := by
  refine ⟨fun x => by simp [safe_div], fun x y hy => by simp [safe_div, hy], ?_⟩
  rw [pipeline_s2]
  rfl

/-- Witness for C2 at x = 5, y = 3. -/
theorem safe_div_total_spec_w :
    safe_div 5 0 = none ∧ (3 : ℚ) ≠ 0 ∧ safe_div 5 3 = some (5 / 3) :=
  ⟨safe_div_total_spec.1 5, by norm_num, safe_div_total_spec.2.1 5 3 (by norm_num)⟩

/-- Inversion for successful line parses: the accepted record has a
non-empty measurement list and its average is sum over count. -/
theorem parseLine_ok_inv (s : String) (r : Record)
    (h : parseLine s = .ok r) :
    r.m ≠ [] ∧ r.a = r.m.sum / (r.m.length : ℚ) := by
  unfold parseLine at h
  split at h
  · cases h
  · split at h
    · cases h
    · split at h
      · cases h
      · split at h
        · cases h
        · next m hemp =>
          cases h
          refine ⟨fun hnil => hemp ?_, rfl⟩
          exact List.isEmpty_iff.mpr hnil

/-- C3: every record the parser accepts has a non-empty measurement list
and its average field equals the arithmetic mean (sum divided by count)
of the measurements. -/
theorem averager_arithmetic_mean (s : String) (r : Record)
    (h : parseLine s = .ok r) :
    r.m ≠ [] ∧ r.a = r.m.sum / (r.m.length : ℚ) :=
  parseLine_ok_inv s r h

/-- Witness for C3 at the concrete line `10 1.0 3.0`. -/
theorem averager_arithmetic_mean_w :
    parseLine "10 1.0 3.0" = .ok ⟨10, [1, 3], 2⟩
    ∧ (⟨10, [1, 3], 2⟩ : Record).m ≠ []
    ∧ (⟨10, [1, 3], 2⟩ : Record).a
        = (⟨10, [1, 3], 2⟩ : Record).m.sum / ((⟨10, [1, 3], 2⟩ : Record).m.length : ℚ) :=
  ⟨parseLine_a1,
   (averager_arithmetic_mean "10 1.0 3.0" ⟨10, [1, 3], 2⟩ parseLine_a1).1,
   (averager_arithmetic_mean "10 1.0 3.0" ⟨10, [1, 3], 2⟩ parseLine_a1).2⟩

/-- C4: for equal-length datasets the Ratio Computer succeeds with a
series of the same length whose i-th element is `safe_div` of the paired
averages; the size fields play no role in the pairing. -/
theorem ratio_computer_aligned (d1 d2 : List Record) (h : d1.length = d2.length) :
    compPy d1 d2 = .ok (List.zipWith (fun r s => safe_div r.a s.a) d1 d2)
    ∧ (List.zipWith (fun r s => safe_div r.a s.a) d1 d2).length = d1.length
    ∧ ∀ (i : ℕ) (r s : Record), d1.get? i = some r → d2.get? i = some s →
        (List.zipWith (fun r s => safe_div r.a s.a) d1 d2).get? i
          = some (safe_div r.a s.a) := by
  refine ⟨compPy_ok_of_le d1 d2 (le_of_eq h), ?_, ?_⟩
  · rw [List.length_zipWith, h]
    exact min_self _
  · intro i r s h1 h2
    exact get?_zipWith_some _ d1 d2 i r s h1 h2

/-- Witness for C4 on the one-record datasets [recA] and [recB]. -/
theorem ratio_computer_aligned_w :
    compPy [recA] [recB] = .ok (List.zipWith (fun r s => safe_div r.a s.a) [recA] [recB])
    ∧ (List.zipWith (fun r s => safe_div r.a s.a) [recA] [recB]).get? 0
        = some (safe_div recA.a recB.a) :=
  ⟨(ratio_computer_aligned [recA] [recB] rfl).1,
   (ratio_computer_aligned [recA] [recB] rfl).2.2 0 recA recB rfl rfl⟩

/-- C5 counterexample: with a one-record first dataset and an empty second
dataset the Ratio Computer does not produce a series at all (no value of
length min 1 0 = 0); it raises IndexError from the out-of-bounds read
`avg2[0]`. -/
theorem comp_unequal_cex :
    compPy [recA] [] = .error .indexError := rfl

/-- C5 (amended): the Ratio Computer is total only when the first dataset
is at most as long as the second; then the series has length
min(len d1, len d2).  When the first dataset is strictly longer, the
comprehension reads past the end of the second average list and raises
IndexError instead of producing a series. -/
theorem comp_length_policy (d1 d2 : List Record) :
    (d1.length ≤ d2.length →
      compPy d1 d2 = .ok (List.zipWith (fun r s => safe_div r.a s.a) d1 d2)
      ∧ (List.zipWith (fun r s => safe_div r.a s.a) d1 d2).length
          = min d1.length d2.length)
    ∧ (d2.length < d1.length → compPy d1 d2 = .error .indexError) := by
  constructor
  · intro hle
    refine ⟨compPy_ok_of_le d1 d2 hle, ?_⟩
    rw [List.length_zipWith]
  · intro hlt
    exact compPy_err_of_lt d1 d2 hlt

/-- Witness for C5: a shorter-first pair succeeds with the min length, a
longer-first pair raises IndexError. -/
theorem comp_length_policy_w :
    (compPy [recA] [recA, recB]
        = .ok (List.zipWith (fun r s => safe_div r.a s.a) [recA] [recA, recB])
      ∧ (List.zipWith (fun r s => safe_div r.a s.a) [recA] [recA, recB]).length
          = min ([recA] : List Record).length ([recA, recB] : List Record).length)
    ∧ compPy [recA, recB] [recA] = .error .indexError :=
  ⟨(comp_length_policy [recA] [recA, recB]).1 (by decide),
   (comp_length_policy [recA, recB] [recA]).2 (by decide)⟩

/-- C6 counterexample: with no label or title options at all, the rendered
plot still carries an x-axis label — the hard-coded `"Data size"` — so the
x-axis is not unlabeled when unconfigured. -/
theorem xlabel_always_set_cex :
    (renderPlot [some 1] none none).xlabel = some "Data size" := rfl

/-- C6 (amended): the plot is a single line trace of the ratio values
against their 0-based index, the y-axis is labeled only for a truthy
ylabel option and the title is set only for a truthy title option, but
the x-axis is always labeled `"Data size"` (there is no x-label option). -/
theorem plot_renderer_amended (ys : List (Option ℚ)) (yl ti : Option String) :
    (renderPlot ys yl ti).trace.length = ys.length
    ∧ (∀ i : ℕ, (renderPlot ys yl ti).trace.get? i
        = (ys.get? i).map fun v => (i, v))
    ∧ (renderPlot ys yl ti).xlabel = some "Data size"
    ∧ (renderPlot ys yl ti).ylabel = (if truthy yl then yl else none)
    ∧ (renderPlot ys yl ti).title = (if truthy ti then ti else none) :=
  ⟨List.enum_length, fun i => by simp [renderPlot, List.get?_eq_getElem?], rfl, rfl, rfl⟩

/-- C7: a line with fewer than two whitespace tokens (blank lines
included) is a fatal parse error, a non-integral first token is a fatal
ValueError, a non-numeric measurement token is a fatal ValueError, and no
accepted record ever has an empty measurement list (so no silent NaN
average). -/
theorem parseLine_eq_cons (s : String) (t : String) (ts : List String)
    (hs : pySplit s = t :: ts) :
    parseLine s
      = match pyInt t with
        | none => .error .valueError
        | some n =>
          match mapMO pyFloat ts with
          | none => .error .valueError
          | some m =>
            if m.isEmpty then .error .zeroDivisionError
            else .ok ⟨n, m, m.sum / (m.length : ℚ)⟩ := by
  unfold parseLine
  rw [hs]

theorem parser_fatal_errors (s : String) :
    ((pySplit s).length < 2 → ∃ e, parseLine s = .error e)
    ∧ (∀ t ts, pySplit s = t :: ts → pyInt t = none →
        parseLine s = .error .valueError)
    ∧ (∀ t ts, pySplit s = t :: ts → (∃ u ∈ ts, pyFloat u = none) →
        parseLine s = .error .valueError)
    ∧ (∀ r : Record, parseLine s = .ok r → r.m ≠ []) := by
  refine ⟨?_, ?_, ?_, ?_⟩
  · intro hlen
    cases hs : pySplit s with
    | nil =>
      refine ⟨.indexError, ?_⟩
      unfold parseLine
      rw [hs]
    | cons t ts =>
      have hts : ts = [] := by
        rw [hs] at hlen
        simp only [List.length_cons] at hlen
        exact List.length_eq_zero.mp (by omega)
      subst hts
      rw [parseLine_eq_cons s t [] hs]
      cases hn : pyInt t with
      | none => exact ⟨.valueError, rfl⟩
      | some v => exact ⟨.zeroDivisionError, rfl⟩
  · intro t ts hs hn
    rw [parseLine_eq_cons s t ts hs, hn]
  · intro t ts hs hu
    obtain ⟨u, hmem, hnone⟩ := hu
    rw [parseLine_eq_cons s t ts hs]
    cases hn : pyInt t with
    | none => rfl
    | some v => rw [mapMO_eq_none pyFloat ts u hmem hnone]
  · intro r h
    exact (parseLine_ok_inv s r h).1

/-- Witness for C7: a blank line and a size-only line fail fatally, a
non-integral size fails with ValueError, a non-numeric measurement fails
with ValueError, and the accepted record of `10 1.0 3.0` has a non-empty
measurement list. -/
theorem parser_fatal_errors_w :
    (∃ e, parseLine "" = .error e)
    ∧ (∃ e, parseLine "10" = .error e)
    ∧ parseLine "x 1.0" = .error .valueError
    ∧ parseLine "10 z" = .error .valueError
    ∧ (⟨10, [1, 3], 2⟩ : Record).m ≠ [] :=
  ⟨(parser_fatal_errors "").1 (by decide),
   (parser_fatal_errors "10").1 (by decide),
   (parser_fatal_errors "x 1.0").2.1 "x" ["1.0"] (by decide) (by decide),
   (parser_fatal_errors "10 z").2.2.1 "10" ["z"] (by decide) ⟨"z", by decide, by decide⟩,
   (parser_fatal_errors "10 1.0 3.0").2.2.2 ⟨10, [1, 3], 2⟩ parseLine_a1⟩

/-- C8: whenever the positional file arguments (all of which parse) do
not number exactly two, the run stops at `assert len(data) == 2` with an
AssertionError; since the pipeline errors out, no plot value is ever
produced. -/
theorem wrong_file_count_asserts (files : List String) (ds : List (List Record))
    (opts : Opts) (h : mapME parseFile files = .ok ds)
    (hn : files.length ≠ 2) :
    pipeline files opts = .error .assertionError := by
  have hlen : ds.length = files.length := mapME_ok_length parseFile files ds h
  unfold pipeline
  rw [h, ok_bind]
  match ds, hlen with
  | [], hlen => rfl
  | [d], hlen => rfl
  | [d1, d2], hlen => exact absurd (hlen.symm.trans rfl) hn
  | d1 :: d2 :: d3 :: rest, hlen => rfl

/-- Witness for C8: a single well-formed input file trips the assertion. -/
theorem wrong_file_count_asserts_w :
    mapME parseFile [fileA] = .ok [[⟨10, [1, 3], 2⟩, ⟨20, [2, 2], 2⟩]]
    ∧ pipeline [fileA] optsNone = .error .assertionError := by
  have hmap : mapME parseFile [fileA] = .ok [[⟨10, [1, 3], 2⟩, ⟨20, [2, 2], 2⟩]] := by
    simp only [mapME]
    rw [parseFile_a]
    simp only [ok_bind, pureE]
  exact ⟨hmap, wrong_file_count_asserts [fileA] _ optsNone hmap (by decide)⟩

/-- Any successful run writes exactly the truthiness-filtered output path. -/
theorem pipeline_ok_written (files : List String) (opts : Opts) (r : RunResult)
    (h : pipeline files opts = .ok r) :
    r.written = if truthy opts.output then opts.output else none := by
  unfold pipeline at h
  cases hm : mapME parseFile files with
  | error e => rw [hm, error_bind] at h; cases h
  | ok data =>
    rw [hm, ok_bind] at h
    split at h
    · next d1 d2 =>
      cases hc : compPy d1 d2 with
      | error e => rw [hc, error_bind] at h; cases h
      | ok c =>
        rw [hc, ok_bind, pureE] at h
        cases h
        rfl
    · cases h

/-- C9 counterexample: supplying `--output` with the empty-string path on
the scenario-1 run writes no file, although an output path was supplied,
because `if out:` tests truthiness rather than presence. -/
theorem output_empty_string_cex :
    (pipeline [fileA, fileB] ⟨some "", none, none⟩).map (fun r => r.written)
      = .ok none := by
  rw [pipeline_s1]
  rfl

/-- C9 (amended): a plot file is written if and only if a non-empty
output path was supplied: a truthy path is written to verbatim, while an
omitted or empty path writes nothing and the run ends without error. -/
theorem file_writer_amended :
    (∀ (files : List String) (opts : Opts) (r : RunResult),
      pipeline files opts = .ok r →
        ((∀ pth, opts.output = some pth → pth ≠ "" → r.written = some pth)
         ∧ (opts.output = none → r.written = none)
         ∧ (opts.output = some "" → r.written = none)))
    ∧ (pipeline [fileA, fileB] ⟨some "plot.png", none, none⟩).map (fun r => r.written)
        = .ok (some "plot.png")
    ∧ (pipeline [fileA, fileB] optsNone).map (fun r => r.written) = .ok none := by
  refine ⟨?_, ?_, ?_⟩
  · intro files opts r h
    have hw := pipeline_ok_written files opts r h
    refine ⟨?_, ?_, ?_⟩
    · intro pth hp hne
      rw [hw, hp]
      simp [truthy, hne]
    · intro hp
      rw [hw, hp]
      rfl
    · intro hp
      rw [hw, hp]
      rfl
  · rw [pipeline_s1]
    rfl
  · rw [pipeline_s1]
    rfl

/-- Witness for C9: the run with `--output plot.png` reports that path as
written. -/
theorem file_writer_amended_w :
    (runS1 ⟨some "plot.png", none, none⟩).written = some "plot.png" :=
  (file_writer_amended.1 [fileA, fileB] ⟨some "plot.png", none, none⟩
      (runS1 ⟨some "plot.png", none, none⟩) (pipeline_s1 _)).1 "plot.png" rfl (by decide)

/-- Options whose gated fields agree pointwise produce identical runs. -/
theorem pipeline_opts_congr (files : List String) (o1 o2 : Opts)
    (ho : (if truthy o1.output then o1.output else none)
        = (if truthy o2.output then o2.output else none))
    (hy : (if truthy o1.ylabel then o1.ylabel else none)
        = (if truthy o2.ylabel then o2.ylabel else none))
    (ht : (if truthy o1.title then o1.title else none)
        = (if truthy o2.title then o2.title else none)) :
    pipeline files o1 = pipeline files o2 := by
  unfold pipeline
  cases hm : mapME parseFile files with
  | error e => rfl
  | ok data =>
    simp only [ok_bind]
    split
    · next d1 d2 =>
      cases hc : compPy d1 d2 with
      | error e => rfl
      | ok c =>
        simp only [ok_bind, pureE, renderPlot, ho, hy, ht]
    · rfl

/-- Truthiness gating sends the empty string and an absent option to the
same value. -/
theorem truthy_empty_gate :
    (if truthy (some "") then (some "" : Option String) else none)
      = (if truthy none then (none : Option String) else none) := by
  simp [truthy]

/-- C10: supplying `--ylabel`, `--title` or `--output` with an empty
string behaves exactly like omitting the option, for every input file
list and every setting of the other two options, because the script
gates each use on string truthiness. -/
theorem empty_option_like_omitted (files : List String) (yl ti out : Option String) :
    pipeline files ⟨some "", yl, ti⟩ = pipeline files ⟨none, yl, ti⟩
    ∧ pipeline files ⟨out, some "", ti⟩ = pipeline files ⟨out, none, ti⟩
    ∧ pipeline files ⟨out, yl, some ""⟩ = pipeline files ⟨out, yl, none⟩ :=
  ⟨pipeline_opts_congr files _ _ truthy_empty_gate rfl rfl,
   pipeline_opts_congr files _ _ rfl truthy_empty_gate rfl,
   pipeline_opts_congr files _ _ rfl rfl truthy_empty_gate⟩
